import Mathlib

/-!
Verification of the node-health-monitor health aggregation and alerting
engine. The Python data model (`models.py`), the alert cooldown and
orchestration logic (`monitor.py`) and the remediation decision logic
(`remediation/handler.py`) are shallowly embedded: floats become rationals,
dicts become association lists, exceptions become `Except`, and the external
collector / notifier / script-executor collaborators become function
parameters.
-/

namespace NHM

/-- The `HealthStatus` enum from `models.py`. -/
inductive HealthStatus where
  | healthy
  | warning
  | critical
  | unreachable
  | unknown
deriving DecidableEq, Repr

/-- Embeds `ServiceStatus` dataclass: name and running flag (the optional pid /
memory / cpu / uptime fields play no role in any health logic and are
omitted from the embedding). -/
structure ServiceStatus where
  name : String
  running : Bool
deriving DecidableEq, Repr

/-- Embeds `ServiceStatus.status`: HEALTHY if running else CRITICAL. -/
def ServiceStatus.status (s : ServiceStatus) : HealthStatus :=
  if s.running then .healthy else .critical

/-- Embeds `NodeHealth` dataclass. Floats are embedded as rationals; the
`thresholds` dict becomes an association list from metric name to the
(warning, critical) pair. Fields that never feed any health decision
(timestamp, cpu_percent, the gb totals) are kept only where some embedded
function reads them. -/
structure NodeHealth where
  name : String
  host : String
  platform : String
  reachable : Bool := true
  error_message : Option String := none
  cpu_percent : ℚ := 0
  cpu_count : ℤ := 1
  load_average : ℚ × ℚ × ℚ := (0, 0, 0)
  memory_percent : ℚ := 0
  disk_percent : ℚ := 0
  services : List ServiceStatus := []
  thresholds : List (String × (ℚ × ℚ)) := []
deriving DecidableEq, Repr

/-- Embeds `NodeHealth._get_status`: classify `value` against the thresholds
registered for `metric`; no registered pair gives UNKNOWN. -/
def NodeHealth.get_status (n : NodeHealth) (value : ℚ) (metric : String) :
    HealthStatus :=
  match n.thresholds.lookup metric with
  | none => .unknown
  | some (warning, critical) =>
      if value ≥ critical then .critical
      else if value ≥ warning then .warning
      else .healthy

/-- Embeds `NodeHealth.memory_status`. -/
def NodeHealth.memory_status (n : NodeHealth) : HealthStatus :=
  n.get_status n.memory_percent "memory"

/-- Embeds `NodeHealth.disk_status`. -/
def NodeHealth.disk_status (n : NodeHealth) : HealthStatus :=
  n.get_status n.disk_percent "disk"

/-- Embeds `NodeHealth.load_status`: the 1-minute load average is normalized by
`max(cpu_count, 1)` before classification. -/
def NodeHealth.load_status (n : NodeHealth) : HealthStatus :=
  n.get_status (n.load_average.1 / ((max n.cpu_count 1 : ℤ) : ℚ)) "load"

/-- The `statuses` list built inside `NodeHealth.status`: the three metric
statuses followed by every service status. -/
def NodeHealth.component_statuses (n : NodeHealth) : List HealthStatus :=
  [n.memory_status, n.disk_status, n.load_status]
    ++ n.services.map ServiceStatus.status

/-- Embeds `NodeHealth.status`: UNREACHABLE when not reachable; otherwise
CRITICAL if any component status is CRITICAL, else WARNING if any is
WARNING, else HEALTHY. -/
def NodeHealth.status (n : NodeHealth) : HealthStatus :=
  if n.reachable = false then .unreachable
  else if HealthStatus.critical ∈ n.component_statuses then .critical
  else if HealthStatus.warning ∈ n.component_statuses then .warning
  else .healthy

/-- Fixed-point rendering with one decimal digit, standing in for Python's
float format specifier of width one used in the alert strings. Exact digits
of the binary-float rounding are not reproduced; the rendering is
deterministic in the snapshot, which is all the alert logic relies on. -/
def formatFixed1 (q : ℚ) : String :=
  let n : ℤ := round (q * 10)
  let sign := if n < 0 then "-" else ""
  let m := n.natAbs
  sign ++ toString (m / 10) ++ "." ++ toString (m % 10)

/-- Fixed-point rendering with two decimal digits (the load-average alert). -/
def formatFixed2 (q : ℚ) : String :=
  let n : ℤ := round (q * 100)
  let sign := if n < 0 then "-" else ""
  let m := n.natAbs
  let d := m % 100
  sign ++ toString (m / 100) ++ "." ++ (if d < 10 then "0" else "") ++ toString d

/-- The unreachable-node alert text: Python's `error_message or
\x27Connection failed\x27` falls back on the default when the message is
None or the empty string. -/
def NodeHealth.unreachableAlert (n : NodeHealth) : String :=
  "Node unreachable: " ++
    (match n.error_message with
     | none => "Connection failed"
     | some m => if m = "" then "Connection failed" else m)

/-- Embeds `NodeHealth.get_alerts`: one alert when unreachable; otherwise one
alert per WARNING/CRITICAL metric (memory, disk, load, in that order)
followed by one alert per non-running service. -/
def NodeHealth.get_alerts (n : NodeHealth) : List String :=
  if n.reachable = false then [n.unreachableAlert]
  else
    (match n.memory_status with
     | .critical => ["CRITICAL: Memory at " ++ formatFixed1 n.memory_percent ++ "%"]
     | .warning => ["WARNING: Memory at " ++ formatFixed1 n.memory_percent ++ "%"]
     | _ => [])
    ++ (match n.disk_status with
     | .critical => ["CRITICAL: Disk at " ++ formatFixed1 n.disk_percent ++ "%"]
     | .warning => ["WARNING: Disk at " ++ formatFixed1 n.disk_percent ++ "%"]
     | _ => [])
    ++ (match n.load_status with
     | .critical => ["CRITICAL: Load average " ++ formatFixed2 n.load_average.1]
     | .warning => ["WARNING: Load average " ++ formatFixed2 n.load_average.1]
     | _ => [])
    ++ (n.services.filter (fun s => s.running = false)).map
        (fun s => "CRITICAL: Service \x27" ++ s.name ++ "\x27 is not running")

/-- Embeds `ClusterHealth` dataclass (timestamp omitted: no aggregate reads it). -/
structure ClusterHealth where
  nodes : List NodeHealth := []
deriving DecidableEq, Repr

/-- Embeds `ClusterHealth.status`. -/
def ClusterHealth.status (c : ClusterHealth) : HealthStatus :=
  if c.nodes.isEmpty then .unknown
  else if HealthStatus.unreachable ∈ c.nodes.map NodeHealth.status
      ∨ HealthStatus.critical ∈ c.nodes.map NodeHealth.status then .critical
  else if HealthStatus.warning ∈ c.nodes.map NodeHealth.status then .warning
  else .healthy

/-- Embeds `ClusterHealth.healthy_count`. -/
def ClusterHealth.healthy_count (c : ClusterHealth) : ℕ :=
  c.nodes.countP (fun n => n.status == .healthy)

/-- Embeds `ClusterHealth.warning_count`. -/
def ClusterHealth.warning_count (c : ClusterHealth) : ℕ :=
  c.nodes.countP (fun n => n.status == .warning)

/-- Embeds `ClusterHealth.critical_count`: counts CRITICAL and UNREACHABLE nodes. -/
def ClusterHealth.critical_count (c : ClusterHealth) : ℕ :=
  c.nodes.countP (fun n => n.status == .critical || n.status == .unreachable)

/-! ## Alert dispatcher (`HealthMonitor._process_alerts`)

The cooldown dict `self._alert_cooldown : dict[str, datetime]` becomes an
association list from cooldown key to timestamp; times are rationals in
seconds, so `(now - last).total_seconds()` is plain subtraction. The
`on_alert` notifier callback is abstracted to the Boolean fact that it was
invoked (its exceptions are caught by the source and change nothing). -/

/-- The cooldown key built in `_process_alerts`. -/
def cooldownKey (nodeName msg : String) : String := nodeName ++ ":" ++ msg

/-- In-place dict assignment on the association-list embedding: replace the
value at the key when present (keeping its position, as Python dicts do),
append at the end otherwise. -/
def setAssoc : List (String × ℚ) → String → ℚ → List (String × ℚ)
  | [], k, v => [(k, v)]
  | p :: rest, k, v =>
      if p.1 = k then (k, v) :: rest else p :: setAssoc rest k v

/-- The body of the per-message loop in `_process_alerts`: a key recorded
less than 300 seconds ago skips the message (state untouched); otherwise
the timestamp is recorded and the callback invoked. Returns the new
cooldown state and whether the notifier callback was invoked. -/
def processOneAlert (st : List (String × ℚ)) (nodeName msg : String) (now : ℚ) :
    List (String × ℚ) × Bool :=
  match st.lookup (cooldownKey nodeName msg) with
  | some last =>
      if now - last < 300 then (st, false)
      else (setAssoc st (cooldownKey nodeName msg) now, true)
  | none => (setAssoc st (cooldownKey nodeName msg) now, true)

/-- Embeds `_process_alerts`: when a callback is registered, fold the per-message
loop over the node's alerts, collecting the messages actually dispatched;
with no callback the method returns at once. -/
def process_alerts (hasCallback : Bool) (st : List (String × ℚ))
    (health : NodeHealth) (now : ℚ) : List (String × ℚ) × List String :=
  if hasCallback = false then (st, [])
  else
    health.get_alerts.foldl
      (fun acc msg =>
        let r := processOneAlert acc.1 health.name msg now
        (r.1, acc.2 ++ if r.2 then [msg] else []))
      (st, [])

/-! ## Check orchestrator (`HealthMonitor.check_node` / `check_all`)

The collector is the external collaborator: it is a parameter
`collect : NodeConfig → Except String NodeHealth`, where `.error` stands
for an exception escaping `collect()`. Dispatcher invocations (calls to
`_process_alerts`) are recorded as (node name, alert list) events so the
claims about "dispatcher invoked once per node" can be read off. -/

/-- Embeds `SSHConfig` (only the host matters to the orchestrator). -/
structure SSHConfig where
  username : String
  host : String
deriving DecidableEq, Repr

/-- Embeds `NodeConfig` (fields the orchestrator reads; `isLocal` embeds the
source field `local`, which is a reserved word here). -/
structure NodeConfig where
  name : String
  platform : String
  enabled : Bool := true
  isLocal : Bool := false
  ssh : Option SSHConfig := none
  services : List String := []
  thresholds : Option (List (String × (ℚ × ℚ))) := none
deriving Repr

/-- The threshold-injection step of `check_node`: a node with no override
receives the global thresholds before the collector runs. -/
def resolveThresholds (globalThresholds : List (String × (ℚ × ℚ)))
    (cfg : NodeConfig) : NodeConfig :=
  { cfg with thresholds := some (cfg.thresholds.getD globalThresholds) }

/-- A dispatcher invocation: the node name and the alert list handed to
`_process_alerts`. -/
abbrev DispatchEvent := String × List String

/-- Embeds `check_node`: with neither `local` nor `ssh` configured, return a
synthetic UNREACHABLE snapshot at once (no dispatcher call); otherwise
resolve thresholds, run the collector, and on success invoke the
dispatcher once with the snapshot before returning it. A collector
exception propagates. -/
def check_node (globalThresholds : List (String × (ℚ × ℚ)))
    (collect : NodeConfig → Except String NodeHealth)
    (cfg : NodeConfig) : Except String (NodeHealth × List DispatchEvent) :=
  if cfg.isLocal || cfg.ssh.isSome then
    match collect (resolveThresholds globalThresholds cfg) with
    | .error e => .error e
    | .ok h => .ok (h, [(h.name, h.get_alerts)])
  else
    .ok ({ name := cfg.name, host := "unknown", platform := cfg.platform,
           reachable := false,
           error_message :=
             some "No collector configured (set local=True or provide SSH config)" },
         [])

/-- The synthetic UNREACHABLE snapshot built by `check_all`'s sequential
exception handler. -/
def syntheticFailure (cfg : NodeConfig) (e : String) : NodeHealth :=
  { name := cfg.name,
    host := (match cfg.ssh with | some s => s.host | none => "unknown"),
    platform := cfg.platform, reachable := false, error_message := some e }

/-- One iteration of `check_all`'s sequential loop: a successful
`check_node` appends its snapshot and its dispatcher events, a raised
exception appends the synthetic snapshot and no event. -/
def check_step (globalThresholds : List (String × (ℚ × ℚ)))
    (collect : NodeConfig → Except String NodeHealth)
    (acc : List NodeHealth × List DispatchEvent) (cfg : NodeConfig) :
    List NodeHealth × List DispatchEvent :=
  match check_node globalThresholds collect cfg with
  | .ok (h, evs) => (acc.1 ++ [h], acc.2 ++ evs)
  | .error e => (acc.1 ++ [syntheticFailure cfg e], acc.2)

/-- Embeds `check_all` in sequential mode: fold over the enabled nodes, catching
per-node failures into synthetic UNREACHABLE snapshots, and bundle the
results into a `ClusterHealth`; alongside, the trace of dispatcher
invocations in order. -/
def check_all_seq (globalThresholds : List (String × (ℚ × ℚ)))
    (collect : NodeConfig → Except String NodeHealth)
    (nodes : List NodeConfig) : ClusterHealth × List DispatchEvent :=
  let r := (nodes.filter (fun n => n.enabled)).foldl
    (check_step globalThresholds collect) ([], [])
  (⟨r.1⟩, r.2)

/-! ## Remediation decision logic (`RemediationHandler.handle`)

Script execution (`_execute_script`) runs a subprocess and is external; the
embedding keeps the decision: which entries `handle` emits, in which order,
with which result-tuple label, which action identifier it hands the
executor, and which service-naming environment override. -/

/-- Embeds `RemediationConfig` from `config.py`. -/
structure RemediationConfig where
  enabled : Bool := false
  scripts_dir : String := "./remediation"
  on_high_memory : Option String := none
  on_high_disk : Option String := none
  on_high_load : Option String := none
  on_service_down : List (String × String) := []
deriving Repr

/-- Python truthiness of a `str | None` field: None and the empty string
are falsy. -/
def strTruthy : Option String → Bool
  | none => false
  | some s => !(s == "")

/-- One emitted remediation: `label` is the first component of the tuple
`handle` appends to its results, `action` the action identifier passed to
`_execute_script` (exported as NHM_ACTION), `script` the configured script,
`serviceEnv` the NHM_SERVICE override when present. -/
structure RemediationAction where
  label : String
  action : String
  script : String
  serviceEnv : Option String := none
deriving DecidableEq, Repr

/-- The decision part of `RemediationHandler.handle`: disabled config emits
nothing; otherwise the memory, disk and load rules fire on CRITICAL status
with a truthy configured script, then each non-running service whose name
is a key of `on_service_down` fires, in service-list order. -/
def handle_actions (config : RemediationConfig) (health : NodeHealth) :
    List RemediationAction :=
  if config.enabled = false then []
  else
    (if health.memory_status == .critical && strTruthy config.on_high_memory then
       [{ label := "high_memory", action := "high_memory",
          script := config.on_high_memory.getD "" }] else [])
    ++ (if health.disk_status == .critical && strTruthy config.on_high_disk then
       [{ label := "high_disk", action := "high_disk",
          script := config.on_high_disk.getD "" }] else [])
    ++ (if health.load_status == .critical && strTruthy config.on_high_load then
       [{ label := "high_load", action := "high_load",
          script := config.on_high_load.getD "" }] else [])
    ++ health.services.filterMap (fun s =>
        if s.running = false then
          match config.on_service_down.lookup s.name with
          | some script =>
              some { label := "restart_" ++ s.name,
                     action := "service_down:" ++ s.name,
                     script := script, serviceEnv := some s.name }
          | none => none
        else none)

/-! ## Spec-side definitions

Definitions written from the specification's words, to be compared with the
embedded code. -/

/-- Severity for worst-wins aggregation, following the spec: HEALTHY <
WARNING < CRITICAL, and UNKNOWN "does not elevate severity". -/
def severityRank : HealthStatus → ℕ
  | .healthy => 0
  | .unknown => 0
  | .warning => 1
  | .critical => 2
  | .unreachable => 3

/-- The worst (highest-severity) status among a list, per the spec's
"most severe wins" wording; an empty list is HEALTHY. -/
def worst_status_spec : List HealthStatus → HealthStatus
  | [] => .healthy
  | s :: rest =>
      if severityRank (worst_status_spec rest) < severityRank s then s
      else worst_status_spec rest

/-- The spec's Metric Status Classifier contract:
`classify(value, warning_threshold, critical_threshold)`. -/
def classify (value warning critical : ℚ) : HealthStatus :=
  if value ≥ critical then .critical
  else if value ≥ warning then .warning
  else .healthy

/-- Written from the amended C6 claim: the snapshot an enabled node
contributes to the cluster — the collector's snapshot when one is
configured and it returns, the synthetic UNREACHABLE snapshot otherwise. -/
def node_snapshot_spec (globalThresholds : List (String × (ℚ × ℚ)))
    (collect : NodeConfig → Except String NodeHealth)
    (cfg : NodeConfig) : NodeHealth :=
  if cfg.isLocal || cfg.ssh.isSome then
    match collect (resolveThresholds globalThresholds cfg) with
    | .ok h => h
    | .error e => syntheticFailure cfg e
  else
    { name := cfg.name, host := "unknown", platform := cfg.platform,
      reachable := false,
      error_message :=
        some "No collector configured (set local=True or provide SSH config)" }

/-- Written from the amended C6 claim: the dispatcher event an enabled
node contributes — present, carrying the snapshot's name and alert list,
exactly when a collector is configured and returns; absent for nodes whose
snapshot is synthesized by the orchestrator. -/
def node_event_spec (globalThresholds : List (String × (ℚ × ℚ)))
    (collect : NodeConfig → Except String NodeHealth)
    (cfg : NodeConfig) : Option DispatchEvent :=
  if cfg.isLocal || cfg.ssh.isSome then
    match collect (resolveThresholds globalThresholds cfg) with
    | .ok h => some (h.name, h.get_alerts)
    | .error _ => none
  else none

/-- Written from the amended C7 claim: the emitted remediation sequence —
"high_memory", "high_disk", "high_load" for CRITICAL metrics with a
configured script, then, for each non-running service with a configured
script, an entry whose result label is "restart_<name>" while
"service_down:<name>" is the action identifier handed to the executor
together with the NHM_SERVICE override. -/
def remediation_decision_spec (config : RemediationConfig)
    (health : NodeHealth) : List RemediationAction :=
  if config.enabled = false then []
  else
    (if health.memory_status = .critical ∧ strTruthy config.on_high_memory then
      [{ label := "high_memory", action := "high_memory",
         script := config.on_high_memory.getD "" }] else [])
    ++ (if health.disk_status = .critical ∧ strTruthy config.on_high_disk then
      [{ label := "high_disk", action := "high_disk",
         script := config.on_high_disk.getD "" }] else [])
    ++ (if health.load_status = .critical ∧ strTruthy config.on_high_load then
      [{ label := "high_load", action := "high_load",
         script := config.on_high_load.getD "" }] else [])
    ++ (health.services.filter
          (fun s => !s.running && (config.on_service_down.lookup s.name).isSome)).map
        (fun s =>
          { label := "restart_" ++ s.name, action := "service_down:" ++ s.name,
            script := (config.on_service_down.lookup s.name).getD "",
            serviceEnv := some s.name })

/-! ## Concrete example inputs

Snapshots and configurations used by witnesses and counterexamples; values
follow the repository's own test fixtures and the spec's concrete
scenarios. -/

/-- A node whose registered memory thresholds are out of order (warning 90
above critical 80). -/
def nodeC3cex : NodeHealth :=
  { name := "c3", host := "h", platform := "linux",
    thresholds := [("memory", (90, 80))] }

/-- A node with the usual in-order memory thresholds (80, 90) and memory
at 95%. -/
def nodeC3wit : NodeHealth :=
  { name := "c3w", host := "h", platform := "linux", memory_percent := 95,
    thresholds := [("memory", (80, 90))] }

/-- The spec's concrete scenario 2: load average (10, 8, 6), 4 cores, load
thresholds (4, 8). -/
def loadNodeEx : NodeHealth :=
  { name := "load-node", host := "h", platform := "linux",
    load_average := (10, 8, 6), cpu_count := 4,
    thresholds := [("load", (4, 8))] }

/-- The spec's concrete scenario 4: service "mysql" not running, no other
breaches. -/
def serviceNodeEx : NodeHealth :=
  { name := "service-test", host := "localhost", platform := "linux",
    memory_percent := 50, disk_percent := 40, load_average := (1, 3/2, 2),
    cpu_count := 4,
    services := [⟨"nginx", true⟩, ⟨"mysql", false⟩],
    thresholds := [("memory", (80, 90)), ("disk", (80, 90)), ("load", (4, 8))] }

/-- A node configuration with neither `local` nor `ssh` set. -/
def cfgNoCollector : NodeConfig := { name := "n1", platform := "linux" }

/-- A collector that succeeds with a bare snapshot (never consulted for
`cfgNoCollector`, which has no collector). -/
def collectPlain : NodeConfig → Except String NodeHealth :=
  fun c => .ok { name := c.name, host := "h", platform := c.platform }

/-- A remediation configuration with only a script for service "mysql". -/
def rcfgMySQL : RemediationConfig :=
  { enabled := true, on_service_down := [("mysql", "restart_mysql.sh")] }

/-! ## Helper lemmas -/

/-- Embeds `_get_status` never returns UNREACHABLE. -/
lemma get_status_ne_unreachable (n : NodeHealth) (v : ℚ) (m : String) :
    n.get_status v m ≠ .unreachable := by
  unfold NodeHealth.get_status
  cases h : n.thresholds.lookup m with
  | none => simp
  | some p =>
      obtain ⟨w, c⟩ := p
      dsimp only
      split <;> [simp; split <;> simp]

/-- A service status is HEALTHY or CRITICAL, never UNREACHABLE. -/
lemma service_status_ne_unreachable (s : ServiceStatus) :
    s.status ≠ .unreachable := by
  unfold ServiceStatus.status
  split <;> simp

/-- UNREACHABLE never occurs among a node's component statuses. -/
lemma unreachable_not_mem_component_statuses (n : NodeHealth) :
    HealthStatus.unreachable ∉ n.component_statuses := by
  unfold NodeHealth.component_statuses
  intro hmem
  rcases List.mem_append.1 hmem with h | h
  · simp only [List.mem_cons, List.not_mem_nil, or_false] at h
    rcases h with h | h | h
    · exact get_status_ne_unreachable n _ _ h.symm
    · exact get_status_ne_unreachable n _ _ h.symm
    · exact get_status_ne_unreachable n _ _ h.symm
  · obtain ⟨s, _, hs⟩ := List.mem_map.1 h
    exact service_status_ne_unreachable s hs

/-- On a list free of UNREACHABLE, the spec's worst-wins aggregation is:
CRITICAL if present, else WARNING if present, else HEALTHY (UNKNOWN never
elevates). -/
lemma worst_status_spec_eq (l : List HealthStatus)
    (h : HealthStatus.unreachable ∉ l) :
    worst_status_spec l =
      if HealthStatus.critical ∈ l then .critical
      else if HealthStatus.warning ∈ l then .warning
      else .healthy := by
  induction l with
  | nil => simp [worst_status_spec]
  | cons s rest ih =>
      simp only [List.mem_cons, not_or] at h
      obtain ⟨hs, hrest⟩ := h
      rw [worst_status_spec, ih hrest]
      by_cases hc : HealthStatus.critical ∈ rest
      · cases s <;> simp_all [severityRank]
      · by_cases hw : HealthStatus.warning ∈ rest
        · cases s <;> simp_all [severityRank]
        · cases s <;> simp_all [severityRank]

/-! ## Claim theorems -/

/-- C1: an unreachable node's overall status is UNREACHABLE regardless of
metrics and services; otherwise the overall status is the most severe
status (CRITICAL > WARNING > HEALTHY) among the memory, disk and load
statuses and every service status, with UNKNOWN never elevating the
result. -/
theorem c1_node_overall_status (n : NodeHealth) :
    n.status = if n.reachable = false then HealthStatus.unreachable
               else worst_status_spec n.component_statuses := by
  rw [worst_status_spec_eq _ (unreachable_not_mem_component_statuses n)]
  unfold NodeHealth.status
  rfl

/-- C2: cluster status is UNKNOWN for an empty node list; else CRITICAL
when some node is CRITICAL or UNREACHABLE; else WARNING when some node is
WARNING; else HEALTHY. -/
theorem c2_cluster_status (c : ClusterHealth) :
    c.status =
      if c.nodes = [] then HealthStatus.unknown
      else if ∃ n ∈ c.nodes, n.status = .critical ∨ n.status = .unreachable then
        HealthStatus.critical
      else if ∃ n ∈ c.nodes, n.status = .warning then HealthStatus.warning
      else HealthStatus.healthy := by
  unfold ClusterHealth.status
  simp only [List.isEmpty_iff, List.mem_map]
  by_cases he : c.nodes = []
  · simp [he]
  · simp only [he, if_false]
    by_cases hc : ∃ n ∈ c.nodes, n.status = .critical ∨ n.status = .unreachable
    · have hor : (∃ n ∈ c.nodes, NodeHealth.status n = HealthStatus.unreachable)
          ∨ ∃ n ∈ c.nodes, NodeHealth.status n = HealthStatus.critical := by
        obtain ⟨n, hn, h | h⟩ := hc
        · exact Or.inr ⟨n, hn, h⟩
        · exact Or.inl ⟨n, hn, h⟩
      simp only [hc, if_true]
      rw [if_pos hor]
    · have hnor : ¬ ((∃ n ∈ c.nodes, NodeHealth.status n = HealthStatus.unreachable)
          ∨ ∃ n ∈ c.nodes, NodeHealth.status n = HealthStatus.critical) := by
        rintro (⟨n, hn, h⟩ | ⟨n, hn, h⟩)
        · exact hc ⟨n, hn, Or.inr h⟩
        · exact hc ⟨n, hn, Or.inl h⟩
      simp only [hc, if_false]
      rw [if_neg hnor]

/-- C3 counterexample: with the registered pair (warning, critical) =
(90, 80) and value 85, the claim's clause "HEALTHY when value < warning"
demands HEALTHY, but the code classifies 85 ≥ critical = 80 as CRITICAL.
The claim as stated, quantifying over every registered pair, is false. -/
theorem c3_counterexample :
    nodeC3cex.thresholds.lookup "memory" = some (90, 80) ∧
    (85 : ℚ) < 90 ∧
    nodeC3cex.get_status 85 "memory" = HealthStatus.critical ∧
    nodeC3cex.get_status 85 "memory" ≠ HealthStatus.healthy := by
  refine ⟨rfl, by norm_num, ?_, ?_⟩ <;> decide

/-- C3 amended: for a registered pair with warning ≤ critical, the
classification is CRITICAL at value ≥ critical, WARNING on
[warning, critical), HEALTHY below warning; a metric with no registered
pair is UNKNOWN, not HEALTHY. -/
theorem c3_classification (n : NodeHealth) (metric : String) (w c v : ℚ)
    (hreg : n.thresholds.lookup metric = some (w, c)) (hwc : w ≤ c) :
    (c ≤ v → n.get_status v metric = .critical) ∧
    (w ≤ v ∧ v < c → n.get_status v metric = .warning) ∧
    (v < w → n.get_status v metric = .healthy) ∧
    (∀ m2, n.thresholds.lookup m2 = none →
      n.get_status v m2 = .unknown ∧ n.get_status v m2 ≠ .healthy) := by
  unfold NodeHealth.get_status
  rw [hreg]
  dsimp only
  refine ⟨?_, ?_, ?_, ?_⟩
  · intro h
    rw [if_pos h]
  · rintro ⟨h1, h2⟩
    rw [if_neg (by linarith), if_pos h1]
  · intro h
    rw [if_neg (by linarith), if_neg (by linarith)]
  · intro m2 hm2
    rw [hm2]
    simp

/-- C3 witness: a pair (80, 90) in order, value 95 ≥ critical classifies
CRITICAL. -/
theorem c3_classification_witness :
    nodeC3wit.get_status 95 "memory" = HealthStatus.critical :=
  (c3_classification nodeC3wit "memory" 80 90 95 (by decide) (by norm_num)).1
    (by norm_num)

/-- After the dict assignment `setAssoc m k v`, the key `k` maps to `v`. -/
lemma lookup_setAssoc (m : List (String × ℚ)) (k : String) (v : ℚ) :
    (setAssoc m k v).lookup k = some v := by
  induction m with
  | nil => simp [setAssoc, List.lookup]
  | cons p rest ih =>
      by_cases hp : p.1 = k
      · simp [setAssoc, hp, List.lookup]
      · have hk : (k == p.1) = false :=
          beq_eq_false_iff_ne.mpr (fun h => hp h.symm)
        simp [setAssoc, hp, List.lookup, hk, ih]

/-- The three metric statuses of the scenario-4 node are all HEALTHY
(memory 50 < 80, disk 40 < 80, normalized load 1/4 < 4). -/
lemma serviceNodeEx_metric_statuses :
    serviceNodeEx.memory_status = .healthy ∧
    serviceNodeEx.disk_status = .healthy ∧
    serviceNodeEx.load_status = .healthy := by
  have hmk : serviceNodeEx.thresholds.lookup "memory" = some (80, 90) := by
    decide
  have hdk : serviceNodeEx.thresholds.lookup "disk" = some (80, 90) := by
    decide
  have hlk : serviceNodeEx.thresholds.lookup "load" = some (4, 8) := by decide
  refine ⟨?_, ?_, ?_⟩
  · simp only [NodeHealth.memory_status, NodeHealth.get_status, hmk]
    norm_num [serviceNodeEx]
  · simp only [NodeHealth.disk_status, NodeHealth.get_status, hdk]
    norm_num [serviceNodeEx]
  · simp only [NodeHealth.load_status, NodeHealth.get_status, hlk]
    norm_num [serviceNodeEx]

/-- The skip branch of the cooldown check: a key recorded less than 300
seconds before `now` leaves the state untouched and dispatches nothing. -/
lemma processOneAlert_skip (st : List (String × ℚ)) (name msg : String)
    (now last : ℚ) (hl : st.lookup (cooldownKey name msg) = some last)
    (ht : now - last < 300) :
    processOneAlert st name msg now = (st, false) := by
  unfold processOneAlert
  rw [hl]
  show (if now - last < 300 then (st, false)
        else (setAssoc st (cooldownKey name msg) now, true)) = (st, false)
  rw [if_pos ht]

/-- The record branch of the cooldown check: an unrecorded key, or one
recorded at least 300 seconds before `now`, is (re)recorded at `now` and
the callback dispatched. -/
lemma processOneAlert_record (st : List (String × ℚ)) (name msg : String)
    (now : ℚ)
    (h : st.lookup (cooldownKey name msg) = none ∨
      ∃ last, st.lookup (cooldownKey name msg) = some last ∧ 300 ≤ now - last) :
    processOneAlert st name msg now
      = (setAssoc st (cooldownKey name msg) now, true) := by
  unfold processOneAlert
  rcases h with hnone | ⟨last, hl, ht⟩
  · rw [hnone]
  · rw [hl]
    show (if now - last < 300 then (st, false)
          else (setAssoc st (cooldownKey name msg) now, true)) = _
    rw [if_neg (by linarith : ¬ now - last < 300)]

/-- C4: an unreachable node yields exactly the single failure alert;
a reachable node yields exactly one alert for each of memory, disk and
load at WARNING or CRITICAL (none when HEALTHY or UNKNOWN), plus one alert
per non-running service, and nothing else. -/
theorem c4_alerts (n : NodeHealth) :
    (n.reachable = false → n.get_alerts = [n.unreachableAlert]) ∧
    (n.reachable = true →
      n.get_alerts.length =
        (if n.memory_status = .warning ∨ n.memory_status = .critical then 1 else 0) +
        (if n.disk_status = .warning ∨ n.disk_status = .critical then 1 else 0) +
        (if n.load_status = .warning ∨ n.load_status = .critical then 1 else 0) +
        (n.services.filter (fun s => s.running = false)).length) := by
  constructor
  · intro h
    unfold NodeHealth.get_alerts
    rw [if_pos h]
  · intro h
    unfold NodeHealth.get_alerts
    rw [if_neg (by simp [h])]
    simp only [List.length_append, List.length_map]
    cases hm : n.memory_status <;> cases hd : n.disk_status <;>
      cases hl : n.load_status <;> simp

/-- C4 witness: the scenario-4 node (only "mysql" down) has exactly one
alert. -/
theorem c4_alerts_witness : serviceNodeEx.get_alerts.length = 1 := by
  obtain ⟨hm, hd, hl⟩ := serviceNodeEx_metric_statuses
  have h := (c4_alerts serviceNodeEx).2 rfl
  rw [h, hm, hd, hl]
  simp [serviceNodeEx]

/-- C5: a processed alert whose cooldown key was recorded less than 300
seconds earlier dispatches nothing and leaves the state untouched;
otherwise the timestamp is recorded and the callback dispatched; hence an
identical alert repeated within the window dispatches exactly once, and a
repeat after the window dispatches again. -/
theorem c5_cooldown (st : List (String × ℚ)) (name msg : String)
    (t0 t1 t2 : ℚ) :
    (∀ last, st.lookup (cooldownKey name msg) = some last → t0 - last < 300 →
      processOneAlert st name msg t0 = (st, false)) ∧
    ((st.lookup (cooldownKey name msg) = none ∨
      ∃ last, st.lookup (cooldownKey name msg) = some last ∧ 300 ≤ t0 - last) →
      (processOneAlert st name msg t0).2 = true ∧
      (processOneAlert st name msg t0).1.lookup (cooldownKey name msg) = some t0) ∧
    (st.lookup (cooldownKey name msg) = none → t1 - t0 < 300 → 300 ≤ t2 - t0 →
      ((processOneAlert st name msg t0).2,
       (processOneAlert (processOneAlert st name msg t0).1 name msg t1).2,
       (processOneAlert
         (processOneAlert (processOneAlert st name msg t0).1 name msg t1).1
         name msg t2).2) = (true, false, true) ∧
      (processOneAlert (processOneAlert st name msg t0).1 name msg t1).1 =
        (processOneAlert st name msg t0).1) := by
  refine ⟨fun last hl ht => processOneAlert_skip st name msg t0 last hl ht,
    ?_, ?_⟩
  · intro h
    rw [processOneAlert_record st name msg t0 h]
    exact ⟨rfl, lookup_setAssoc st _ t0⟩
  · intro hnone h1 h2
    have e0 : processOneAlert st name msg t0
        = (setAssoc st (cooldownKey name msg) t0, true) :=
      processOneAlert_record st name msg t0 (Or.inl hnone)
    have l0 : (processOneAlert st name msg t0).1.lookup (cooldownKey name msg)
        = some t0 := by
      rw [e0]
      exact lookup_setAssoc st _ t0
    have e1 : processOneAlert (processOneAlert st name msg t0).1 name msg t1
        = ((processOneAlert st name msg t0).1, false) :=
      processOneAlert_skip _ name msg t1 t0 l0 (by linarith)
    have e2 : processOneAlert (processOneAlert st name msg t0).1 name msg t2
        = (setAssoc (processOneAlert st name msg t0).1 (cooldownKey name msg) t2,
           true) :=
      processOneAlert_record _ name msg t2 (Or.inr ⟨t0, l0, by linarith⟩)
    refine ⟨?_, by rw [e1]⟩
    rw [e1]
    dsimp only
    rw [e2, e0]

/-- C5 witness: with "n:m" recorded at time 0, the same alert at time 100
is suppressed and the state unchanged. -/
theorem c5_cooldown_witness :
    processOneAlert [(cooldownKey "n" "m", 0)] "n" "m" 100
      = ([(cooldownKey "n" "m", 0)], false) :=
  (c5_cooldown [(cooldownKey "n" "m", 0)] "n" "m" 100 0 0).1 0
    (by decide) (by norm_num)

/-- One orchestration step matches the per-node spec description: the
snapshot is appended, and a dispatcher event appears exactly when the
collector was invoked and returned. -/
lemma check_step_eq (gt : List (String × (ℚ × ℚ)))
    (collect : NodeConfig → Except String NodeHealth)
    (acc : List NodeHealth × List DispatchEvent) (cfg : NodeConfig) :
    check_step gt collect acc cfg
      = (acc.1 ++ [node_snapshot_spec gt collect cfg],
         acc.2 ++ (node_event_spec gt collect cfg).toList) := by
  unfold check_step check_node node_snapshot_spec node_event_spec
  by_cases hc : cfg.isLocal || cfg.ssh.isSome
  · rw [if_pos hc, if_pos hc, if_pos hc]
    cases h : collect (resolveThresholds gt cfg) with
    | ok hh => simp
    | error e => simp
  · rw [if_neg hc, if_neg hc, if_neg hc]
    rfl

/-- The sequential fold over node configurations accumulates exactly the
spec-side snapshots and dispatcher events. -/
lemma check_foldl_spec (gt : List (String × (ℚ × ℚ)))
    (collect : NodeConfig → Except String NodeHealth)
    (l : List NodeConfig) (acc : List NodeHealth × List DispatchEvent) :
    l.foldl (check_step gt collect) acc
      = (acc.1 ++ l.map (node_snapshot_spec gt collect),
         acc.2 ++ l.filterMap (node_event_spec gt collect)) := by
  induction l generalizing acc with
  | nil => simp
  | cons cfg l ih =>
      rw [List.foldl_cons, ih, check_step_eq]
      cases h : node_event_spec gt collect cfg <;>
        simp [h, List.filterMap_cons]

/-- C6 counterexample: a single enabled node with neither `local` nor
`ssh` configured resolves into the cluster snapshot (one node), yet the
dispatcher trace is empty — not one invocation per resolved node with its
alert list, as the claim demands. -/
theorem c6_counterexample :
    (check_all_seq [] collectPlain [cfgNoCollector]).1.nodes.length = 1 ∧
    ¬ ((check_all_seq [] collectPlain [cfgNoCollector]).2
        = (check_all_seq [] collectPlain [cfgNoCollector]).1.nodes.map
            (fun n => (n.name, n.get_alerts))) := by
  constructor
  · decide
  · decide

/-- C6 amended: every enabled node contributes exactly one snapshot to the
cluster, in configuration order; the dispatcher is invoked exactly once —
with the snapshot's name and alert list — for each node whose collector
was invoked and returned (reachable or not), and not at all for nodes
whose snapshot the orchestrator synthesized (no collector configured, or
collector exception). -/
theorem c6_dispatch_per_collected_node (gt : List (String × (ℚ × ℚ)))
    (collect : NodeConfig → Except String NodeHealth)
    (nodes : List NodeConfig) :
    (check_all_seq gt collect nodes).1.nodes
        = (nodes.filter (fun n => n.enabled)).map (node_snapshot_spec gt collect)
    ∧ (check_all_seq gt collect nodes).2
        = (nodes.filter (fun n => n.enabled)).filterMap
            (node_event_spec gt collect) := by
  unfold check_all_seq
  rw [check_foldl_spec]
  exact ⟨by simp, by simp⟩

/-- The service loop of `handle`: filterMap over the services equals the
filter-then-map spec description. -/
lemma service_filterMap_eq (m : List (String × String))
    (l : List ServiceStatus) :
    l.filterMap (fun s =>
        if s.running = false then
          match m.lookup s.name with
          | some script =>
              some ({ label := "restart_" ++ s.name,
                      action := "service_down:" ++ s.name,
                      script := script,
                      serviceEnv := some s.name } : RemediationAction)
          | none => none
        else none)
      = (l.filter (fun s => !s.running && (m.lookup s.name).isSome)).map
          (fun s =>
            ({ label := "restart_" ++ s.name,
               action := "service_down:" ++ s.name,
               script := (m.lookup s.name).getD "",
               serviceEnv := some s.name } : RemediationAction)) := by
  induction l with
  | nil => rfl
  | cons s l ih =>
      by_cases hr : s.running = false
      · cases hm : m.lookup s.name with
        | some script =>
            simp [List.filterMap_cons, List.filter_cons, hr, hm, ih]
        | none =>
            simp [List.filterMap_cons, List.filter_cons, hr, hm, ih]
      · simp [List.filterMap_cons, List.filter_cons, hr, ih]

/-- C7 counterexample: service "mysql" down with a configured script —
the emitted action (the first component of the tuple `handle` returns) is
"restart_mysql", not "service_down:mysql" as the claim states. -/
theorem c7_counterexample :
    (handle_actions rcfgMySQL serviceNodeEx).map (fun a => a.label)
        = ["restart_mysql"] ∧
    ¬ ((handle_actions rcfgMySQL serviceNodeEx).map (fun a => a.label)
        = ["service_down:mysql"]) := by
  obtain ⟨hm, hd, hl⟩ := serviceNodeEx_metric_statuses
  have h : (handle_actions rcfgMySQL serviceNodeEx).map (fun a => a.label)
      = ["restart_mysql"] := by
    unfold handle_actions
    rw [hm, hd, hl]
    simp [rcfgMySQL, serviceNodeEx, strTruthy, List.filterMap_cons,
      List.lookup]
  exact ⟨h, by rw [h]; decide⟩

/-- C7 amended: with remediation enabled, `handle` emits exactly the
firing rules in the order memory, disk, load, then services in
configuration order; the metric rules are labeled "high_memory",
"high_disk", "high_load", while a down service named s yields the result
label "restart_s" with action identifier "service_down:s" and the
NHM_SERVICE=s environment override handed to the executor. -/
theorem c7_remediation_decision (config : RemediationConfig)
    (health : NodeHealth) :
    handle_actions config health = remediation_decision_spec config health := by
  unfold handle_actions remediation_decision_spec
  by_cases he : config.enabled = false
  · rw [if_pos he, if_pos he]
  · rw [if_neg he, if_neg he, service_filterMap_eq]
    simp only [Bool.and_eq_true, beq_iff_eq]

/-- C8: the load status first normalizes the 1-minute load average by
`max(cpu_count, 1)` and then classifies the normalized value against the
load thresholds; concretely, load average (10, 8, 6) on 4 cores with load
thresholds (4, 8) normalizes to 5/2 and is HEALTHY. -/
theorem c8_load_normalization (n : NodeHealth) (w c : ℚ)
    (h : n.thresholds.lookup "load" = some (w, c)) :
    n.load_status
        = classify (n.load_average.1 / ((max n.cpu_count 1 : ℤ) : ℚ)) w c ∧
    loadNodeEx.load_average.1 / ((max loadNodeEx.cpu_count 1 : ℤ) : ℚ) = 5 / 2 ∧
    loadNodeEx.load_status = .healthy := by
  have hlk : loadNodeEx.thresholds.lookup "load" = some (4, 8) := by decide
  refine ⟨?_, ?_, ?_⟩
  · unfold NodeHealth.load_status NodeHealth.get_status classify
    rw [h]
  · norm_num [loadNodeEx]
  · simp only [NodeHealth.load_status, NodeHealth.get_status, hlk]
    norm_num [loadNodeEx]

/-- C8 witness: the general normalization equation applied to the
scenario-2 node and its registered load thresholds (4, 8). -/
theorem c8_load_normalization_witness :
    loadNodeEx.load_status
      = classify
          (loadNodeEx.load_average.1 / ((max loadNodeEx.cpu_count 1 : ℤ) : ℚ))
          4 8 :=
  (c8_load_normalization loadNodeEx 4 8 (by decide)).1

/-- A node's overall status is always one of UNREACHABLE, CRITICAL,
WARNING, HEALTHY. -/
lemma node_status_cases (n : NodeHealth) :
    n.status = .unreachable ∨ n.status = .critical ∨ n.status = .warning ∨
    n.status = .healthy := by
  unfold NodeHealth.status
  split_ifs <;> simp

/-- Counting CRITICAL-or-UNREACHABLE nodes splits into the two separate
counts (no node is both). -/
lemma countP_crit_split (l : List NodeHealth) :
    l.countP (fun n => n.status == .critical || n.status == .unreachable)
      = l.countP (fun n => n.status == .critical)
        + l.countP (fun n => n.status == .unreachable) := by
  induction l with
  | nil => rfl
  | cons n l ih =>
      rw [List.countP_cons, List.countP_cons, List.countP_cons]
      rcases node_status_cases n with h | h | h | h <;> simp [h, ih] <;> omega

/-- The three cluster counters together cover every node exactly once. -/
lemma counts_cover (l : List NodeHealth) :
    l.countP (fun n => n.status == .healthy)
      + l.countP (fun n => n.status == .warning)
      + l.countP (fun n => n.status == .critical || n.status == .unreachable)
      = l.length := by
  induction l with
  | nil => rfl
  | cons n l ih =>
      rw [List.countP_cons, List.countP_cons, List.countP_cons,
        List.length_cons]
      rcases node_status_cases n with h | h | h | h <;> simp [h] <;> omega

/-- C9: `critical_count` is the number of CRITICAL nodes plus the number
of UNREACHABLE nodes, while `healthy_count` and `warning_count` count only
the nodes whose overall status equals exactly that value. -/
theorem c9_cluster_counts (c : ClusterHealth) :
    c.critical_count
        = (c.nodes.filter (fun n => n.status == .critical)).length
          + (c.nodes.filter (fun n => n.status == .unreachable)).length ∧
    c.healthy_count = (c.nodes.filter (fun n => n.status == .healthy)).length ∧
    c.warning_count = (c.nodes.filter (fun n => n.status == .warning)).length := by
  refine ⟨?_, ?_, ?_⟩
  · rw [ClusterHealth.critical_count, countP_crit_split,
      List.countP_eq_length_filter, List.countP_eq_length_filter]
  · rw [ClusterHealth.healthy_count, List.countP_eq_length_filter]
  · rw [ClusterHealth.warning_count, List.countP_eq_length_filter]

/-- C10: a node's overall status is never UNKNOWN — it is always one of
UNREACHABLE, CRITICAL, WARNING, HEALTHY, even with an empty thresholds
map — and, consequently, the three cluster counters sum to the total
number of nodes. -/
theorem c10_status_never_unknown (n : NodeHealth) (c : ClusterHealth) :
    n.status ≠ .unknown ∧
    (n.status = .unreachable ∨ n.status = .critical ∨ n.status = .warning ∨
      n.status = .healthy) ∧
    c.healthy_count + c.warning_count + c.critical_count = c.nodes.length := by
  refine ⟨?_, node_status_cases n, ?_⟩
  · rcases node_status_cases n with h | h | h | h <;> simp [h]
  · rw [ClusterHealth.healthy_count, ClusterHealth.warning_count,
      ClusterHealth.critical_count]
    exact counts_cover c.nodes

end NHM
